import Mathlib

/-!
Verification of the NES emulator core (CPU, ALU, memory bus, PPU).

Shallow embedding of the Rust sources: bytes and 16-bit words are `Nat`
with explicit `% 256` / `% 65536` where the machine wraps, bit operations
use `&&&`, `|||`, `^^^`, `>>>`, `<<<`, fallible code returns `Option` or
`Except`.  Structures and functions keep the names of the source and structure.
-/

set_option maxHeartbeats 1000000

/-! ### CPU flags register (src/cpu/register.rs)

The `bitflags!` block defines the bit layout of the processor status
register; `from_bits_truncate` zeroes every bit outside the defined set.
-/

def flagN : Nat := 0b00000001
def flagV : Nat := 0b00000010
def flagB : Nat := 0b00001000
def flagD : Nat := 0b00010000
def flagI : Nat := 0b00100000
def flagZ : Nat := 0b01000000
def flagC : Nat := 0b10000000

/-- Union of all defined flag bits (the `bitflags` all-mask): 0xfb. -/
def flagsMask : Nat := flagN ||| flagV ||| flagB ||| flagD ||| flagI ||| flagZ ||| flagC

/-- The `bitflags` `contains`: all bits of `mask` are present in `bits`. -/
def flagContains (bits mask : Nat) : Bool := bits &&& mask = mask

/-- The `bitflags` `insert`. -/
def flagInsert (bits mask : Nat) : Nat := bits ||| mask

/-- The `bitflags` `remove` for 8-bit flags: `bits & !mask`. -/
def flagRemove (bits mask : Nat) : Nat := bits &&& (mask ^^^ 0xff)

/-- The `bitflags` `set`. -/
def flagSet (bits mask : Nat) (b : Bool) : Nat :=
  if b then flagInsert bits mask else flagRemove bits mask

/-- The `impl From<u8> for Flags`: `from_bits_truncate` keeps only defined bits. -/
def Flags.fromByte (v : Nat) : Nat := v &&& flagsMask

/-- The `impl From<Flags> for u8`: returns the raw bits. -/
def Flags.toByte (f : Nat) : Nat := f

/-! ### ALU (src/cpu/alu.rs) -/

/-- Rust `u8::overflowing_add` on byte values. -/
def overflowing_add8 (a b : Nat) : Nat × Bool := ((a + b) % 256, decide (256 ≤ a + b))

/-- Rust `u8::overflowing_shr`: shifts by `rhs % 8` and reports whether
`rhs` was at least the bit width (it does NOT report the shifted-out bit). -/
def overflowing_shr8 (a rhs : Nat) : Nat × Bool := (a >>> (rhs % 8), decide (8 ≤ rhs))

/-- Free function `adc` (alu.rs lines 25-36): add with carry, returning
`(value, carry_out, overflow)`.  The overflow expression is transcribed
exactly, including its comparison with zero. -/
def adc (a b : Nat) (carry_in : Bool) : Nat × Bool × Bool :=
  let vc : Nat × Bool :=
    if carry_in then
      let p1 := overflowing_add8 a b
      let p2 := overflowing_add8 p1.1 1
      (p2.1, p1.2 || p2.2)
    else overflowing_add8 a b
  let value := vc.1
  let carry_out := vc.2
  let overflow : Bool := decide ((a ^^^ value) &&& (b ^^^ value) &&& 0x80 = 0)
  (value, carry_out, overflow)

/-- Free function `ror` (alu.rs lines 42-46): shift right through carry,
built on `overflowing_shr`. -/
def ror (a : Nat) (carry_in : Bool) : Nat × Bool :=
  let vc := overflowing_shr8 a 1
  let carry : Nat := if carry_in then 0b10000000 else 0
  (vc.1 ||| carry, vc.2)

/-- ALU operation tags (alu.rs `enum Op`). -/
inductive Op where
  | Adc | Asl | And | Cmp | Dec | Eor | Inc | Or | Rol | Ror | Sbc
deriving DecidableEq, Repr

/-- The `struct ALU` state: input registers, carry-in, flags, outputs. -/
structure ALU where
  input_a : Nat
  input_b : Nat
  carry_in : Bool
  flags : Nat
  output : Nat
  carry_out : Bool
  overflow_out : Bool
deriving Repr

/-- The `ALU::new`. -/
def ALU.new : ALU :=
  { input_a := 0, input_b := 0, carry_in := false, flags := Flags.fromByte 0,
    output := 0, carry_out := false, overflow_out := false }

/-- Method `ALU::adc` (alu.rs lines 78-83): runs the free `adc` with the
stored carry-in and records the three outputs. -/
def ALU.adc_update (s : ALU) (a b : Nat) : ALU :=
  let r := adc a b s.carry_in
  { s with output := r.1, carry_out := r.2.1, overflow_out := r.2.2 }

/-- The `ALU::do_arithmetic` (alu.rs lines 86-168).  Returns `(output, flags,
new state)`.  The local `flags` mask requests carry/overflow write-back for
the Asl arm; the trailing section inserts Z and N from the output byte
(inserting only — never clearing). -/
def ALU.do_arithmetic (s : ALU) (op : Op) : Nat × Nat × ALU :=
  let step : Nat × ALU :=
    match op with
    | Op.Adc =>
        let s := { s with carry_in := flagContains s.flags flagC }
        let s := s.adc_update s.input_a s.input_b
        let s := { s with flags := flagSet s.flags flagC s.carry_out }
        let s := { s with flags := flagSet s.flags flagV s.overflow_out }
        (0, s)
    | Op.And => (0, { s with output := s.input_a &&& s.input_b })
    | Op.Asl =>
        let s := { s with carry_in := false }
        let s := s.adc_update s.input_a s.input_a
        (flagC, s)
    | Op.Cmp =>
        let s := { s with carry_in := false }
        let s := s.adc_update s.input_a (s.input_b ^^^ 0xff)
        let s := { s with flags := flagSet s.flags flagC s.carry_out }
        (0, s)
    | Op.Dec => (0, s.adc_update s.input_a 0xff)
    | Op.Eor => (0, { s with output := s.input_a ^^^ s.input_b })
    | Op.Inc => (0, s.adc_update s.input_a 1)
    | Op.Or => (0, { s with output := s.input_a ||| s.input_b })
    | Op.Rol => (0, s.adc_update s.input_a s.input_a)
    | Op.Ror =>
        let r := ror s.input_a s.carry_in
        (0, { s with output := r.1, carry_out := r.2 })
    | Op.Sbc =>
        let s := { s with carry_in := flagContains s.flags flagC }
        let s := s.adc_update s.input_a (s.input_b ^^^ 0xff)
        let s := { s with flags := flagSet s.flags flagC s.carry_out }
        let s := { s with flags := flagSet s.flags flagV s.overflow_out }
        (0, s)
  let flags := step.1
  let s := step.2
  let s := if flagContains flags flagC then { s with flags := flagSet s.flags flagC s.carry_out } else s
  let s := if flagContains flags flagV then { s with flags := flagSet s.flags flagV s.overflow_out } else s
  let s := if s.output = 0 then { s with flags := flagInsert s.flags flagZ } else s
  let s := if s.output &&& 0b10000000 = 0b10000000 then { s with flags := flagInsert s.flags flagN } else s
  (s.output, s.flags, s)

/-! ### Instruction decoding (src/cpu/instructions.rs) -/

/-- The `enum AddressMode` (instructions.rs lines 53-66): 12 variants. -/
inductive AddressMode where
  | Accumulator | Absolute | AbsoluteX | AbsoluteY | Immediate | Indirect
  | XIndirect | IndirectY | Relative | ZeroPage | ZeroPageX | ZeroPageY
deriving DecidableEq, Repr

/-- The `enum Instruction` (instructions.rs lines 3-51), exactly the variants of
the source (note: no BCC/BCS/BEQ, `LSR` takes no mode, and `RIT`). -/
inductive Instruction where
  | ADC (m : AddressMode)
  | AND (m : AddressMode)
  | BIT (m : AddressMode)
  | BMI | BNE | BPL | BRK | BVC | BVS
  | CLR (f : Nat)
  | CMP (m : AddressMode)
  | CPX (m : AddressMode)
  | CPY (m : AddressMode)
  | DEC (m : AddressMode)
  | DEX | DEY
  | EOR (m : AddressMode)
  | INC (m : AddressMode)
  | INX | INY
  | JMP (m : AddressMode)
  | JSR
  | LDA (m : AddressMode)
  | LDX (m : AddressMode)
  | LDY (m : AddressMode)
  | LSR | NOP
  | ORA (m : AddressMode)
  | PHA | PHP | PLA | PLP
  | ROL (m : AddressMode)
  | ROR (m : AddressMode)
  | RIT | RTS
  | SBC (m : AddressMode)
  | SET (f : Nat)
  | STA (m : AddressMode)
  | STX (m : AddressMode)
  | STY (m : AddressMode)
  | TAX | TAY | TSX | TXA | TXS | TYA
deriving DecidableEq, Repr

/-- The `decode` (instructions.rs lines 68-72): the opcode match consists of a
single catch-all arm that fails with the fixed message "Not implemented"
for every opcode, so no opcode ever decodes to an instruction. -/
def decode (opcode : Nat) : Except String Instruction :=
  match opcode with
  | _ => Except.error "Not implemented"

/-! ### CPU register bank (src/cpu/register.rs) -/

/-- The `struct Registers`: accumulator, index registers, stack pointer, flags. -/
structure Registers where
  A : Nat
  X : Nat
  Y : Nat
  S : Nat
  P : Nat
deriving Repr

/-- The `Registers::init`: everything zero at power-on. -/
def Registers.init : Registers := { A := 0, X := 0, Y := 0, S := 0, P := Flags.fromByte 0 }

/-! ### PPU internal registers and register bank (src/ppu/register.rs) -/

/-- The `struct InternalRegister`: the 15-bit scroll register, stored as
coarse-x / y / nametable sub-fields. -/
structure InternalRegister where
  coarse_x : Nat
  y : Nat
  nametable : Nat
deriving Repr

/-- The `InternalRegister::init`. -/
def InternalRegister.init : InternalRegister := { coarse_x := 0, y := 0, nametable := 0 }

/-- The `InternalRegister::set_low_address`. -/
def InternalRegister.set_low_address (r : InternalRegister) (value : Nat) : InternalRegister :=
  let coarse_x := value &&& 0b00011111
  let y := (value &&& 0b11100000) >>> 2
  { r with coarse_x := coarse_x, y := (r.y &&& 0b11000111) ||| y }

/-- The `InternalRegister::set_high_address`. -/
def InternalRegister.set_high_address (r : InternalRegister) (value : Nat) : InternalRegister :=
  let coarse_y := value &&& 0b0011
  let fine_y := (value &&& 0b01110000) >>> 4
  { r with y := (r.y &&& 0b00111000) ||| (fine_y ||| (coarse_y <<< 6)) }

/-- The `InternalRegister::write_x_scroll`. -/
def InternalRegister.write_x_scroll (r : InternalRegister) (value : Nat) : InternalRegister :=
  { r with coarse_x := (value &&& 0b11111000) >>> 3 }

/-- The `InternalRegister::write_y_scroll`. -/
def InternalRegister.write_y_scroll (r : InternalRegister) (value : Nat) : InternalRegister :=
  { r with y := value }

/-- The `InternalRegister::increment_coarse_x`. -/
def InternalRegister.increment_coarse_x (r : InternalRegister) : InternalRegister :=
  if r.coarse_x = 31 then { r with coarse_x := 0, nametable := r.nametable ^^^ 1 }
  else { r with coarse_x := r.coarse_x + 0b01 }

/-- The `InternalRegister::increment_y`. -/
def InternalRegister.increment_y (r : InternalRegister) : InternalRegister :=
  if r.y = 0b11101111 then { r with y := 0, nametable := r.nametable ^^^ 0b10 }
  else if r.y = 0b11111111 then { r with y := 0 }
  else { r with y := r.y + 1 }

/-- The `StatusRegister::VBLANK` bit. -/
def statusVblank : Nat := 0b10000000

/-- The `struct RegisterBank` (ppu/register.rs lines 111-123). -/
structure RegisterBank where
  cr1 : Nat
  cr2 : Nat
  status : Nat
  sprite_address : Nat
  sprite_data : Nat
  ppu_data : Nat
  first_write : Bool
  fine_x_scroll : Nat
  t : InternalRegister
  v : InternalRegister
deriving Repr

/-- The `RegisterBank::init`. -/
def RegisterBank.init : RegisterBank :=
  { cr1 := 0, cr2 := 0, status := 0, sprite_address := 0, sprite_data := 0,
    ppu_data := 0, first_write := true, fine_x_scroll := 0,
    t := InternalRegister.init, v := InternalRegister.init }

/-- The `RegisterBank::read_status` (lines 142-148): returns the current bits,
resets the write-toggle latch and clears the vblank bit. -/
def RegisterBank.read_status (r : RegisterBank) : Nat × RegisterBank :=
  let value := r.status
  (value, { r with first_write := true, status := flagRemove r.status statusVblank })

/-- The `RegisterBank::read_sprite_data`. -/
def RegisterBank.read_sprite_data (r : RegisterBank) : Nat := r.sprite_data

/-- The `RegisterBank::read_ppu_data`. -/
def RegisterBank.read_ppu_data (r : RegisterBank) : Nat := r.ppu_data

/-- The `RegisterBank::set_vblank`. -/
def RegisterBank.set_vblank (r : RegisterBank) : RegisterBank :=
  { r with status := flagInsert r.status statusVblank }

/-- The `RegisterBank::write_cr1` (`from_bits_truncate` with the CR1 mask). -/
def RegisterBank.write_cr1 (r : RegisterBank) (bits : Nat) : RegisterBank :=
  { r with cr1 := bits &&& 0b10111111 }

/-- The `RegisterBank::write_cr2` (`from_bits_truncate` with the CR2 mask). -/
def RegisterBank.write_cr2 (r : RegisterBank) (bits : Nat) : RegisterBank :=
  { r with cr2 := bits &&& 0b11110111 }

/-- The `RegisterBank::write_sprite_address`. -/
def RegisterBank.write_sprite_address (r : RegisterBank) (bits : Nat) : RegisterBank :=
  { r with sprite_address := bits }

/-- The `RegisterBank::write_sprite_data`. -/
def RegisterBank.write_sprite_data (r : RegisterBank) (bits : Nat) : RegisterBank :=
  { r with sprite_data := bits }

/-- The `RegisterBank::write_ppu_scroll` (lines 172-181).  Note that the latch
update is transcribed exactly: `first_write = first_write && false`. -/
def RegisterBank.write_ppu_scroll (r : RegisterBank) (bits : Nat) : RegisterBank :=
  let r :=
    if r.first_write then
      { r with t := r.t.write_x_scroll bits, fine_x_scroll := bits &&& 0b00000111 }
    else { r with t := r.t.write_y_scroll bits }
  { r with first_write := r.first_write && false }

/-- The `RegisterBank::write_ppu_address` (lines 182-188), same latch update. -/
def RegisterBank.write_ppu_address (r : RegisterBank) (bits : Nat) : RegisterBank :=
  let r :=
    if r.first_write then { r with t := r.t.set_high_address bits }
    else { r with t := r.t.set_low_address bits }
  { r with first_write := r.first_write && false }

/-- The `RegisterBank::write_ppu_data`. -/
def RegisterBank.write_ppu_data (r : RegisterBank) (bits : Nat) : RegisterBank :=
  { r with ppu_data := bits }

/-! ### PPU (src/ppu/mod.rs, src/ppu/memory.rs) -/

/-- The `struct GraphicsMemory` (ppu/memory.rs): VRAM plus an (always absent)
cartridge reference. -/
structure GraphicsMemory where
  ram : Nat → Nat
  cartridge : Option Unit

/-- The `GraphicsMemory::init`. -/
def GraphicsMemory.init : GraphicsMemory := { ram := fun _ => 0, cartridge := none }

/-- The `struct PPU` (ppu/mod.rs lines 7-21). -/
structure Ppu where
  registers : RegisterBank
  framebuffer : Nat → Nat
  oam_address : Nat
  oam_data : Nat → Nat
  memory : GraphicsMemory
  cpu_cycles : Nat
  scanline : Nat
  cycles : Nat

/-- The `PPU::init` (lines 24-39): OAM starts at 0xff, counters at zero. -/
def Ppu.init : Ppu :=
  { registers := RegisterBank.init, framebuffer := fun _ => 0,
    oam_address := 0, oam_data := fun _ => 0xff, memory := GraphicsMemory.init,
    cpu_cycles := 0, scanline := 0, cycles := 0 }

/-- The `PPU::read_register` (lines 41-48): only registers 2, 4, 7 are readable;
any other register reads as 0.  The status read mutates the bank. -/
def Ppu.read_register (p : Ppu) (address : Nat) : Nat × Ppu :=
  match address with
  | 2 =>
      let vr := p.registers.read_status
      (vr.1, { p with registers := vr.2 })
  | 4 => (p.registers.read_sprite_data, p)
  | 7 => (p.registers.read_ppu_data, p)
  | _ => (0, p)

/-- The `PPU::tick` (lines 59-83): scanlines below 240 do nothing, scanline 241
sets the vblank bit (on every one of its 341 cycles), then the cycle
counter advances, wrapping at 340 and advancing the scanline, which wraps
from 310 back to 0. -/
def Ppu.tick (p : Ppu) : Ppu :=
  let p :=
    if p.scanline < 240 then p
    else if p.scanline = 241 then { p with registers := p.registers.set_vblank }
    else p
  if p.cycles = 340 then
    if p.scanline = 310 then { p with cycles := 0, scanline := 0 }
    else { p with cycles := 0, scanline := p.scanline + 1 }
  else { p with cycles := p.cycles + 1 }

/-- The `PPU::step` (lines 50-57): one CPU-driven step advances the 16-bit
`cpu_cycles` counter and runs 3 ticks, plus a 4th on every 5th step. -/
def Ppu.step (p : Ppu) : Ppu :=
  let p := { p with cpu_cycles := (p.cpu_cycles + 1) % 65536 }
  let p := p.tick.tick.tick
  if p.cpu_cycles % 5 = 0 then p.tick else p

/-- The `PPU::write_register` (lines 85-97): registers 0-7 dispatch to the
bank (2 is read-only, a no-op); any other register number is a fatal
"Invalid write" fault, modelled as `none`. -/
def Ppu.write_register (p : Ppu) (address value : Nat) : Option Ppu :=
  match address with
  | 0 => some { p with registers := p.registers.write_cr1 value }
  | 1 => some { p with registers := p.registers.write_cr2 value }
  | 2 => some p
  | 3 => some { p with registers := p.registers.write_sprite_address value }
  | 4 => some { p with registers := p.registers.write_sprite_data value }
  | 5 => some { p with registers := p.registers.write_ppu_scroll value }
  | 6 => some { p with registers := p.registers.write_ppu_address value }
  | 7 => some { p with registers := p.registers.write_ppu_data value }
  | _ => none

/-- The `PPU::write_oam_address`. -/
def Ppu.write_oam_address (p : Ppu) (address : Nat) : Ppu :=
  { p with oam_address := address }

/-- Pointwise update of a `Nat → Nat` memory array. -/
def updateFn (f : Nat → Nat) (i v : Nat) : Nat → Nat := fun j => if j = i then v else f j

/-- The `PPU::write_oam_data` (lines 104-107): store at the OAM address, then
advance it with 8-bit wrap-around. -/
def Ppu.write_oam_data (p : Ppu) (data : Nat) : Ppu :=
  { p with oam_data := updateFn p.oam_data p.oam_address data,
           oam_address := (p.oam_address + 1) % 256 }

/-! ### Memory bus (src/memory.rs)

`readLog` is instrumentation only: it records the address of every
`read_byte` call so that properties about which addresses the code reads
(for example dummy reads) can be stated; no modelled behaviour depends on
it and no source field corresponds to it.
-/

/-- The `struct MemoryBus` (memory.rs lines 9-15): 2kb RAM, 32kb ROM window,
the PPU, and an 8-bit cycle counter. -/
structure MemoryBus where
  memory : Nat → Nat
  rom_data : Nat → Nat
  ppu : Ppu
  cycles : Nat
  readLog : List Nat

/-- The `MemoryBus::init`. -/
def MemoryBus.init : MemoryBus :=
  { memory := fun _ => 0, rom_data := fun _ => 0, ppu := Ppu.init, cycles := 0, readLog := [] }

/-- The `MemoryBus::tick` (lines 94-98): advance the 8-bit cycle counter with
wrap-around and step the PPU once. -/
def MemoryBus.tick (b : MemoryBus) : MemoryBus :=
  { b with cycles := (b.cycles + 1) % 256, ppu := b.ppu.step }

/-- The `MemoryBus::read_byte` (lines 38-53): address dispatch with RAM
mirroring and PPU register mirroring; addresses 0x4000-0x7fff hit the
panicking catch-all arm, modelled as `none`.  Does not tick. -/
def MemoryBus.read_byte (b : MemoryBus) (address : Nat) : Option (Nat × MemoryBus) :=
  let b := { b with readLog := address :: b.readLog }
  if address ≤ 0x7ff then some (b.memory address, b)
  else if address ≤ 0xfff then some (b.memory (address - 0x800), b)
  else if address ≤ 0x17ff then some (b.memory (address - 0x1000), b)
  else if address ≤ 0x1fff then some (b.memory (address - 0x1800), b)
  else if address ≤ 0x3fff then
    let vp := b.ppu.read_register (address &&& 0x7)
    some (vp.1, { b with ppu := vp.2 })
  else if 0x8000 ≤ address ∧ address ≤ 0xffff then some (b.rom_data (address - 0x8000), b)
  else none

/-- Body of the `write_dma` loop (memory.rs lines 79-84): read one byte
from `page*0x100 + i`, tick, store it to OAM, tick. -/
def dma_body (offset : Nat) (b : MemoryBus) (i : Nat) : Option MemoryBus := do
  let (data, b) ← b.read_byte (0x100 * offset + i)
  let b := b.tick
  let b := { b with ppu := b.ppu.write_oam_data data }
  pure b.tick

/-- The `MemoryBus::write_dma` (lines 71-85): one extra alignment tick when the
cycle counter is odd, then a loop `for i in 1..256` — i.e. 255 iterations,
i = 1 to 255 — each running `dma_body`. -/
def MemoryBus.write_dma (b : MemoryBus) (offset : Nat) : Option MemoryBus :=
  let b := if b.cycles % 2 = 1 then b.tick else b
  (List.range' 1 255).foldlM (dma_body offset) b

/-- The `MemoryBus::write_byte` (lines 55-69): address dispatch; 0x4014
triggers the OAM DMA; unmapped addresses are a silent no-op.  Writes to
0x2000-0x3fff mask the register number with 0xf (not 0x7), so register
numbers 8-15 reach the fatal arm of `write_register`.  Does not tick. -/
def MemoryBus.write_byte (b : MemoryBus) (address value : Nat) : Option MemoryBus :=
  if address ≤ 0x7ff then some { b with memory := updateFn b.memory address value }
  else if address ≤ 0xfff then some { b with memory := updateFn b.memory (address - 0x800) value }
  else if address ≤ 0x17ff then some { b with memory := updateFn b.memory (address - 0x1000) value }
  else if address ≤ 0x1fff then some { b with memory := updateFn b.memory (address - 0x1800) value }
  else if address ≤ 0x3fff then
    (b.ppu.write_register (address &&& 0xf) value).map fun p => { b with ppu := p }
  else if address = 0x4014 then b.write_dma value
  else if 0x8000 ≤ address ∧ address ≤ 0xffff then
    some { b with rom_data := updateFn b.rom_data (address - 0x8000) value }
  else some b

/-- The `MemoryBus::read` (lines 27-31): a read that also ticks once. -/
def MemoryBus.read (b : MemoryBus) (address : Nat) : Option (Nat × MemoryBus) :=
  (b.read_byte address).map fun vb => (vb.1, vb.2.tick)

/-- The `MemoryBus::write` (lines 33-36): a write that also ticks once. -/
def MemoryBus.write (b : MemoryBus) (address value : Nat) : Option MemoryBus :=
  (b.write_byte address value).map MemoryBus.tick

/-! ### CPU execution engine (src/cpu/mod.rs) -/

/-- The `struct CPU` (cpu/mod.rs lines 21-35), minus the cartridge image. -/
structure CPU where
  registers : Registers
  PC : Nat
  memory : MemoryBus
  alu : ALU
  clock : Nat
  address_line : Nat
  is_running : Bool
  opcode : Nat
  next_opcode : Nat

/-- The `CPU::next` (lines 112-116): fetch one byte at PC through
`MemoryBus::read_byte` (NOT through the ticking `read`) and advance PC. -/
def CPU.next (c : CPU) : Option (Nat × CPU) :=
  (c.memory.read_byte c.PC).map fun vm =>
    (vm.1, { c with memory := vm.2, PC := (c.PC + 1) % 65536 })

/-- The `CPU::prev` (lines 107-109). -/
def CPU.prev (c : CPU) : CPU := { c with PC := (c.PC + 65535) % 65536 }

/-- Method `ALU::adc` call helper used by `calculate_address Relative`
(source calls `self.alu.adc(..)` directly). -/
def CPU.alu_adc (c : CPU) (a b : Nat) : CPU := { c with alu := c.alu.adc_update a b }

/-- The `CPU::calculate_address` (lines 514-619).  Accumulator and Immediate
are internal faults (`none`).  Absolute-indexed modes use a single 16-bit
`saturating_add` and perform no memory access beyond the operand fetch. -/
def CPU.calculate_address (c : CPU) (mode : AddressMode) : Option CPU :=
  match mode with
  | AddressMode.Accumulator => none
  | AddressMode.Immediate => none
  | AddressMode.ZeroPage => some { c with address_line := c.next_opcode }
  | AddressMode.ZeroPageX =>
      some { c with address_line := (c.next_opcode + c.registers.X) % 256 }
  | AddressMode.ZeroPageY =>
      some { c with address_line := (c.next_opcode + c.registers.Y) % 256 }
  | AddressMode.Relative =>
      let c := { c with alu := { c.alu with carry_in := false } }
      let c := c.alu_adc c.next_opcode (c.PC &&& 0xff)
      let low := c.alu.output
      let c := { c with alu := { c.alu with carry_in := c.alu.carry_out } }
      let a : Nat := if c.next_opcode &&& 0x80 = 0x80 then 0xff else 0x00
      let c := c.alu_adc a (c.PC >>> 8)
      let high := c.alu.output
      some { c with address_line := (high <<< 8) ||| low }
  | AddressMode.Absolute => do
      let (high, c) ← c.next
      pure { c with address_line := (high <<< 8) ||| c.next_opcode }
  | AddressMode.AbsoluteX => do
      let (high, c) ← c.next
      let load_location := (high <<< 8) ||| c.next_opcode
      pure { c with address_line := min (load_location + c.registers.X) 0xffff }
  | AddressMode.AbsoluteY => do
      let (high, c) ← c.next
      let load_location := (high <<< 8) ||| c.next_opcode
      pure { c with address_line := min (load_location + c.registers.Y) 0xffff }
  | AddressMode.Indirect => do
      let (high, c) ← c.next
      let indirect := (high <<< 8) ||| c.next_opcode
      let (low, m) ← c.memory.read_byte indirect
      let c := { c with memory := m }
      let (high2, m) ← c.memory.read_byte ((indirect + 1) % 65536)
      let c := { c with memory := m }
      pure { c with address_line := (high2 <<< 8) ||| low }
  | AddressMode.XIndirect => do
      let pointer := (c.next_opcode + c.registers.X) % 256
      let (low, m) ← c.memory.read_byte pointer
      let c := { c with memory := m }
      let (high, m) ← c.memory.read_byte ((pointer + 1) % 65536)
      let c := { c with memory := m }
      pure { c with address_line := (high <<< 8) ||| low }
  | AddressMode.IndirectY => do
      let pointer := c.next_opcode
      let (low, m) ← c.memory.read_byte pointer
      let c := { c with memory := m }
      let (high, m) ← c.memory.read_byte ((pointer + 1) % 65536)
      let c := { c with memory := m }
      pure { c with address_line := (((high <<< 8) ||| low) + c.registers.Y) % 65536 }

/-- The `CPU::load` (lines 495-511): obtain the operand byte, then insert — but
never clear — the Z and N flags derived from it. -/
def CPU.load (c : CPU) (mode : AddressMode) : Option (Nat × CPU) := do
  let (value, c) ←
    match mode with
    | AddressMode.Accumulator => some (c.registers.A, c)
    | AddressMode.Immediate => some (c.next_opcode, c)
    | _ => do
        let c ← c.calculate_address mode
        let (v, m) ← c.memory.read_byte c.address_line
        pure (v, { c with memory := m })
  let c :=
    if value = 0 then
      { c with registers := { c.registers with P := flagInsert c.registers.P flagZ } }
    else c
  let c :=
    if value &&& 0x80 = 0x80 then
      { c with registers := { c.registers with P := flagInsert c.registers.P flagN } }
    else c
  pure (value, c)

/-- The `CPU::push` (lines 443-448): write the byte at the stack pointer, then
decrement the stack pointer through the ALU. -/
def CPU.push (c : CPU) (value : Nat) : Option CPU := do
  let m ← c.memory.write_byte c.registers.S value
  let c := { c with memory := m }
  let alu := { c.alu with input_a := c.registers.S }
  let r := alu.do_arithmetic Op.Dec
  let alu := r.2.2
  pure { c with alu := alu, registers := { c.registers with S := alu.output } }

/-- The `CPU::pull` (lines 462-467): increment the stack pointer through the
ALU, then read the byte at the new stack pointer. -/
def CPU.pull (c : CPU) : Option (Nat × CPU) := do
  let alu := { c.alu with input_a := c.registers.S }
  let r := alu.do_arithmetic Op.Inc
  let alu := r.2.2
  let c := { c with alu := alu, registers := { c.registers with S := alu.output } }
  let (v, m) ← c.memory.read_byte c.registers.S
  pure (v, { c with memory := m })

/-- The register effect of `PLP` (execute, lines 352-354) once the pulled
byte `v` is known: `P = Flags::from(v)`. -/
def CPU.plpSet (c : CPU) (v : Nat) : CPU :=
  { c with registers := { c.registers with P := Flags.fromByte v } }

/-- The `PLP` arm of `CPU::execute`: pull a byte and load it into P. -/
def CPU.executePLP (c : CPU) : Option CPU :=
  (c.pull).map fun vc => CPU.plpSet vc.2 vc.1

/-- The `PHP` arm of `CPU::execute` (lines 346-348): push `u8::from(P)`. -/
def CPU.executePHP (c : CPU) : Option CPU :=
  c.push (Flags.toByte c.registers.P)

/-! ### Specification-side definition used for comparison -/

/-- Stated from the words of the specification for add-with-carry, for
comparison with the `adc` of the code: overflow iff the sign bits of `a` and
`b` agree but differ from the sign bit of the result. -/
def overflowSpec (a b : Nat) (carry_in : Bool) : Bool :=
  let result := (a + b + (if carry_in then 1 else 0)) % 256
  (decide (a &&& 0x80 = b &&& 0x80)) && !(decide (a &&& 0x80 = result &&& 0x80))

/-! ### Concrete states used by closed evaluations and witnesses -/

/-- A power-on CPU state: zeroed registers, zeroed memory and ROM. -/
def cpuEx : CPU :=
  { registers := Registers.init, PC := 0, memory := MemoryBus.init, alu := ALU.new,
    clock := 0, address_line := 0, is_running := false, opcode := 0, next_opcode := 0 }

/-- The state `CPU::next` produces from `cpuEx`: one byte fetched, PC
advanced, the fetch address logged. -/
def cpuExNext : CPU :=
  { cpuEx with PC := 1, memory := { MemoryBus.init with readLog := [0] } }

/-- The bus state produced by writing byte 7 to RAM address 0. -/
def busExW : MemoryBus :=
  { MemoryBus.init with memory := updateFn MemoryBus.init.memory 0 7 }

/-- CPU poised to run Absolute,X address calculation: the low operand byte
0xff is latched in `next_opcode`, PC points at the high operand byte 0x02
in ROM (address 0x8001 maps to `rom_data[1]`), X = 1.  Base = 0x02ff. -/
def cpuC5a : CPU :=
  { cpuEx with
    PC := 0x8001
    next_opcode := 0xff
    registers := { Registers.init with X := 1 }
    memory := { MemoryBus.init with rom_data := fun i => if i = 1 then 0x02 else 0 } }

/-- Same, with high operand byte 0xff: base = 0xffff, X = 1. -/
def cpuC5b : CPU :=
  { cpuEx with
    PC := 0x8001
    next_opcode := 0xff
    registers := { Registers.init with X := 1 }
    memory := { MemoryBus.init with rom_data := fun i => if i = 1 then 0xff else 0 } }

/-- CPU about to execute `LDA #$01` while the Zero flag is already set. -/
def cpuC6 : CPU :=
  { cpuEx with next_opcode := 1, registers := { Registers.init with P := flagZ } }

/-- A bus whose RAM holds `a % 256` at each address `a`, with an even
cycle counter — the initial state for the DMA evaluation. -/
def dmaBus : MemoryBus := { MemoryBus.init with memory := fun a => a % 256 }

/-- A PPU state sitting at the start of the vblank scanline. -/
def ppuAt241 : Ppu := { Ppu.init with scanline := 241 }

/-! ### Claim theorems -/

/-- Claim C1.  The result and carry of `adc` behave as the claim states,
but the overflow output is the logical complement of signed 8-bit
overflow: the source compares the sign-bit expression with zero instead
of testing that it is non-zero.  At a = 0, b = 0, carry_in = 0 the signs
of a, b and the result all agree, so the claim requires overflow_out =
false, yet the code returns (0, false, true). -/
theorem adc_overflow_inverted :
    adc 0 0 false = (0, false, true) ∧ overflowSpec 0 0 false = false := by
  decide

/-- Claim C3.  `decode` never returns an (instruction, addressing-mode)
value: every one of the 256 opcodes falls into the single catch-all arm,
which fails with the fixed message "Not implemented" — a message that
does not report the offending opcode.  The decode table required by the
claim is an unimplemented stub. -/
theorem decode_always_unimplemented :
    ∀ opcode : Nat, decode opcode = Except.error "Not implemented" :=
  fun _ => rfl

/-- Claim C5.  Absolute,X with base 0x02ff and X = 1 (a page cross)
produces effective address 0x0300, but the only memory access performed
during the calculation is the operand fetch at PC = 0x8001 — there is no
dummy read at 0x0200.  Moreover the addition is saturating, not modulo
2^16: base 0xffff with X = 1 yields 0xffff instead of 0x0000. -/
theorem absolute_x_no_dummy_read :
    ((cpuC5a.calculate_address AddressMode.AbsoluteX).map fun c =>
        (c.address_line, c.memory.readLog)) = some (0x0300, [0x8001]) ∧
    ((cpuC5b.calculate_address AddressMode.AbsoluteX).map fun c =>
        (c.address_line, c.memory.readLog)) = some (0xffff, [0x8001]) := by
  decide

/-- Claim C6.  Both flag-update paths only ever insert the Z and N flags,
they never clear them: executing `LDA #$01` (result byte 1 ≠ 0) while Z is
already set leaves Z set, and an ALU `AND` of 1 with 1 (result 1 ≠ 0) with
Z already set in the incoming flags returns flags with Z still set — where
the claim requires Z to end up clear because the result is non-zero. -/
theorem load_zero_flag_sticky :
    (cpuC6.load AddressMode.Immediate).map (fun vc => (vc.1, vc.2.registers.P))
      = some (1, flagZ) ∧
    (({ ALU.new with flags := flagZ, input_a := 1, input_b := 1 } : ALU).do_arithmetic
        Op.And).2.1 = flagZ := by
  exact ⟨by decide, by decide⟩

/-- Claim C7.  The write-toggle latch never flips back: `write_ppu_scroll`
and `write_ppu_address` end with `first_write = first_write && false`,
which is constantly false.  From a reset latch, after one write the latch
is false and after two writes it is still false (a flipping latch would
be back to "first write"), so the third write — which the claim says must
affect the first half (coarse X) — lands in the second half (Y): writing
0, 0, 0xf8 to the scroll port leaves coarse_x = 0 and y = 0xf8. -/
theorem scroll_latch_never_flips :
    (RegisterBank.init.write_ppu_scroll 0).first_write = false ∧
    ((RegisterBank.init.write_ppu_scroll 0).write_ppu_scroll 0).first_write = false ∧
    (((RegisterBank.init.write_ppu_scroll 0).write_ppu_scroll 0).write_ppu_scroll 0xf8).t.y
      = 0xf8 ∧
    (((RegisterBank.init.write_ppu_scroll 0).write_ppu_scroll 0).write_ppu_scroll 0xf8).t.coarse_x
      = 0 := by
  decide

/-- Claim C8.  The source builds `ror` on `u8::overflowing_shr`, whose
boolean output reports whether the shift amount reached the bit width —
for a shift by 1 it is always false — rather than the shifted-out bit 0.
So `ror 1 false` returns (0, false) where the claim requires carry_out =
old bit 0 = true; indeed carry_out is false for every input. -/
theorem ror_carry_out_always_false :
    ror 1 false = (0, false) ∧ ∀ (a : Nat) (cin : Bool), (ror a cin).2 = false :=
  ⟨by decide, fun _ _ => rfl⟩

/-! ### Observation lemmas for the DMA transfer (claim C4) -/

/-- The `PPU::tick` never touches the OAM fields or the `cpu_cycles` counter. -/
theorem Ppu.tick_preserves_oam (p : Ppu) :
    (p.tick).cpu_cycles = p.cpu_cycles ∧ (p.tick).oam_address = p.oam_address ∧
    (p.tick).oam_data = p.oam_data := by
  simp only [Ppu.tick]
  split_ifs <;> exact ⟨rfl, rfl, rfl⟩

/-- The `PPU::step` advances `cpu_cycles` by one (mod 2^16) and preserves OAM. -/
theorem Ppu.step_obs (p : Ppu) :
    (p.step).cpu_cycles = (p.cpu_cycles + 1) % 65536 ∧
    (p.step).oam_address = p.oam_address ∧ (p.step).oam_data = p.oam_data := by
  simp only [Ppu.step]
  obtain ⟨a1, b1, c1⟩ := Ppu.tick_preserves_oam ({ p with cpu_cycles := (p.cpu_cycles + 1) % 65536 } : Ppu)
  obtain ⟨a2, b2, c2⟩ := Ppu.tick_preserves_oam ({ p with cpu_cycles := (p.cpu_cycles + 1) % 65536 } : Ppu).tick
  obtain ⟨a3, b3, c3⟩ :=
    Ppu.tick_preserves_oam ({ p with cpu_cycles := (p.cpu_cycles + 1) % 65536 } : Ppu).tick.tick
  obtain ⟨a4, b4, c4⟩ :=
    Ppu.tick_preserves_oam ({ p with cpu_cycles := (p.cpu_cycles + 1) % 65536 } : Ppu).tick.tick.tick
  split_ifs <;> refine ⟨?_, ?_, ?_⟩ <;> simp_all

/-- The `MemoryBus::tick` advances the PPU step counter by exactly one and
leaves OAM and RAM untouched. -/
theorem MemoryBus.tick_counts (b : MemoryBus) :
    (b.tick).ppu.cpu_cycles = (b.ppu.cpu_cycles + 1) % 65536 ∧
    (b.tick).ppu.oam_address = b.ppu.oam_address ∧
    (b.tick).ppu.oam_data = b.ppu.oam_data ∧
    (b.tick).memory = b.memory := by
  obtain ⟨a, o, d⟩ := Ppu.step_obs b.ppu
  exact ⟨a, o, d, rfl⟩

/-- One `write_dma` loop iteration: two bus ticks, one OAM byte stored at
the current OAM address from RAM address `0x200 + i`, OAM address bumped. -/
theorem dma_body_obs (b : MemoryBus) (i : Nat) (hi : i ≤ 255) :
    ∃ b', dma_body 2 b i = some b' ∧
      b'.ppu.cpu_cycles = (b.ppu.cpu_cycles + 2) % 65536 ∧
      b'.ppu.oam_address = (b.ppu.oam_address + 1) % 256 ∧
      b'.ppu.oam_data = updateFn b.ppu.oam_data b.ppu.oam_address (b.memory (0x200 + i)) ∧
      b'.memory = b.memory := by
  have hle : 0x100 * 2 + i ≤ 0x7ff := by omega
  have haddr : 0x100 * 2 + i = 0x200 + i := by norm_num
  rw [haddr] at hle
  obtain ⟨a1, o1, d1, m1⟩ :=
    MemoryBus.tick_counts ({ b with readLog := (0x200 + i) :: b.readLog } : MemoryBus)
  obtain ⟨a2, o2, d2, m2⟩ :=
    MemoryBus.tick_counts
      { ({ b with readLog := (0x200 + i) :: b.readLog } : MemoryBus).tick with
        ppu := ({ b with readLog := (0x200 + i) :: b.readLog } : MemoryBus).tick.ppu.write_oam_data
          (b.memory (0x200 + i)) }
  simp only [dma_body, MemoryBus.read_byte, haddr, if_pos hle]
  refine ⟨_, rfl, ?_, ?_, ?_, ?_⟩
  · rw [a2]; simp only [Ppu.write_oam_data] at *; omega
  · rw [o2]; simp only [Ppu.write_oam_data] at *; omega
  · rw [d2]; simp only [Ppu.write_oam_data] at *; rw [d1, o1]
  · rw [m2]; simp only [Ppu.write_oam_data] at *; rw [m1]

/-- The `List.range'` peeled from the right with step 1. -/
theorem range_one_concat : ∀ (s n : Nat), List.range' s (n + 1) = List.range' s n ++ [s + n] := by
  intro s n
  induction n generalizing s with
  | zero => simp
  | succ n ih =>
      rw [List.range'_succ, ih (s + 1), List.range'_succ]
      simp [Nat.add_assoc, Nat.add_comm 1 n]

/-- Running the `write_dma` loop for `n ≤ 255` iterations from a bus whose
OAM address is 0 and whose OAM bytes are all 0xff: the loop succeeds, the
PPU receives `2 n` step ticks, the OAM address ends at `n`, and OAM slot
`j` holds the RAM byte at `0x201 + j` for `j < n` and 0xff otherwise. -/
theorem dma_loop_obs (b : MemoryBus) (haddr : b.ppu.oam_address = 0)
    (hdata : b.ppu.oam_data = fun _ => 0xff) (hcc : b.ppu.cpu_cycles ≤ 1) :
    ∀ n, n ≤ 255 →
      ∃ b', (List.range' 1 n).foldlM (dma_body 2) b = some b' ∧
        b'.ppu.cpu_cycles = b.ppu.cpu_cycles + 2 * n ∧
        b'.ppu.oam_address = n ∧
        b'.memory = b.memory ∧
        (∀ j, j < n → b'.ppu.oam_data j = b.memory (0x201 + j)) ∧
        (∀ j, n ≤ j → b'.ppu.oam_data j = 0xff) := by
  intro n
  induction n with
  | zero =>
      intro _
      refine ⟨b, rfl, by omega, haddr, rfl, ?_, ?_⟩
      · intro j hj; omega
      · intro j _; rw [hdata]
  | succ n ih =>
      intro h
      obtain ⟨c, hfold, hcc', haddr', hmem', hlt, hge⟩ := ih (by omega)
      obtain ⟨c', hbody, hcc'', haddr'', hdata'', hmem''⟩ := dma_body_obs c (1 + n) (by omega)
      refine ⟨c', ?_, ?_, ?_, ?_, ?_, ?_⟩
      · rw [range_one_concat, List.foldlM_append, hfold]
        show (dma_body 2 c (1 + n) >>= fun x => List.foldlM (dma_body 2) x []) = some c'
        rw [hbody]
        rfl
      · rw [hcc'', hcc']; omega
      · rw [haddr'', haddr']; omega
      · rw [hmem'', hmem']
      · intro j hj
        rw [hdata'', hmem']
        by_cases hje : j = n
        · subst hje
          simp [updateFn, haddr']
          congr 1
          omega
        · have : j < n := by omega
          simp only [updateFn, haddr']
          rw [if_neg hje]
          exact hlt j this
      · intro j hj
        rw [hdata'']
        simp only [updateFn, haddr']
        rw [if_neg (by omega)]
        exact hge j (by omega)

/-- Claim C4.  The DMA loop `for i in 1..256` runs only 255 iterations:
triggering DMA with page 0x02 copies the RAM bytes at 0x0201-0x02ff (not
0x0200-0x02ff) into OAM slots 0-254 — slot 0 receives the byte at 0x0201
(value 1 here), not the byte at 0x0200 (value 0) — leaves slot 255 at its
initial 0xff, advances the OAM address by 255 (not 256, so it ends at 255
instead of wrapping to 0), and consumes 510 bus ticks from an even cycle
count and 511 from an odd one, not 513/514 (the triggering store adds no
tick of its own because the CPU writes through the non-ticking
`write_byte`). -/
theorem dma_off_by_one :
    (∃ b', dmaBus.write_byte 0x4014 0x02 = some b' ∧
        b'.ppu.oam_address = 255 ∧ b'.ppu.oam_data 0 = 0x01 ∧
        b'.ppu.oam_data 255 = 0xff ∧ b'.ppu.cpu_cycles = 510) ∧
    (∃ b'', ({ dmaBus with cycles := 1 } : MemoryBus).write_byte 0x4014 0x02 = some b'' ∧
        b''.ppu.cpu_cycles = 511) := by
  constructor
  · obtain ⟨b', hfold, hcc, haddr, hmem, hlt, hge⟩ :=
      dma_loop_obs dmaBus rfl rfl (by decide) 255 (by omega)
    have h1 : dmaBus.write_byte 0x4014 0x02
        = (List.range' 1 255).foldlM (dma_body 0x02) dmaBus := rfl
    refine ⟨b', h1.trans hfold, haddr, ?_, hge 255 (by omega), ?_⟩
    · have := hlt 0 (by omega)
      rw [this]
      decide
    · rw [hcc]; decide
  · obtain ⟨b'', hfold, hcc, haddr, hmem, hlt, hge⟩ :=
      dma_loop_obs (({ dmaBus with cycles := 1 } : MemoryBus).tick) rfl rfl (by decide)
        255 (by omega)
    have h2 : ({ dmaBus with cycles := 1 } : MemoryBus).write_byte 0x4014 0x02
        = (List.range' 1 255).foldlM (dma_body 0x02)
            (({ dmaBus with cycles := 1 } : MemoryBus).tick) := rfl
    refine ⟨b'', h2.trans hfold, ?_⟩
    rw [hcc]; decide

/-! ### CPU accesses never tick the PPU (claim C2) -/

/-- The `PPU::read_register` can mutate the register bank (a status read) but
never the timing counters. -/
theorem Ppu.read_register_timing (p : Ppu) (a : Nat) :
    ((p.read_register a).2).cpu_cycles = p.cpu_cycles ∧
    ((p.read_register a).2).scanline = p.scanline ∧
    ((p.read_register a).2).cycles = p.cycles := by
  simp only [Ppu.read_register]
  split <;> exact ⟨rfl, rfl, rfl⟩

/-- The `MemoryBus::read_byte` never advances the PPU clock: the PPU after a
successful read has exactly the same timing counters as before. -/
theorem read_byte_timing (b : MemoryBus) (a v : Nat) (b' : MemoryBus)
    (h : b.read_byte a = some (v, b')) :
    b'.ppu.cpu_cycles = b.ppu.cpu_cycles ∧ b'.ppu.scanline = b.ppu.scanline ∧
    b'.ppu.cycles = b.ppu.cycles := by
  simp only [MemoryBus.read_byte] at h
  split_ifs at h
  all_goals
    first
    | exact Option.noConfusion h
    | (simp only [Option.some.injEq, Prod.mk.injEq] at h
       obtain ⟨h1, h2⟩ := h
       subst h2
       first
       | exact ⟨rfl, rfl, rfl⟩
       | exact Ppu.read_register_timing _ _)

/-- Claim C2.  CPU-initiated accesses do not drive the PPU clock: the
instruction fetch `CPU::next` goes through `read_byte`, which performs no
tick (the PPU step counter and scanline/cycle counters are unchanged),
and a `write_byte` to RAM leaves the PPU fully untouched — the claimed
one-tick-per-access coupling exists only in the unused `read`/`write`
wrappers. -/
theorem cpu_access_no_ppu_tick :
    (∀ (c : CPU) (v : Nat) (c' : CPU), CPU.next c = some (v, c') →
        c'.memory.ppu.cpu_cycles = c.memory.ppu.cpu_cycles ∧
        c'.memory.ppu.scanline = c.memory.ppu.scanline ∧
        c'.memory.ppu.cycles = c.memory.ppu.cycles) ∧
    (∀ (b : MemoryBus) (a val : Nat) (b' : MemoryBus), a ≤ 0x1fff →
        b.write_byte a val = some b' → b'.ppu = b.ppu) := by
  constructor
  · intro c v c' h
    simp only [CPU.next, Option.map_eq_some'] at h
    obtain ⟨⟨rv, rb⟩, hrb, heq⟩ := h
    simp only [Prod.mk.injEq] at heq
    obtain ⟨hv, hc⟩ := heq
    subst hc
    exact read_byte_timing c.memory c.PC rv rb hrb
  · intro b a val b' ha h
    simp only [MemoryBus.write_byte] at h
    split_ifs at h
    all_goals
      first
      | omega
      | (simp only [Option.some.injEq] at h; subst h; rfl)

/-- Witness for C2 at the power-on state: a fetch at PC = 0 and a RAM
write both leave the PPU clock where it was. -/
theorem cpu_access_no_ppu_tick_witness :
    cpuExNext.memory.ppu.cpu_cycles = cpuEx.memory.ppu.cpu_cycles ∧
    busExW.ppu = MemoryBus.init.ppu :=
  ⟨(cpu_access_no_ppu_tick.1 cpuEx 0 cpuExNext rfl).1,
   cpu_access_no_ppu_tick.2 MemoryBus.init 0 7 busExW (by decide) rfl⟩

/-! ### PLP/PHP round trip (claim C10) -/

/-- Claim C10.  Loading a byte `v` into the flags register through PLP
(`P = Flags::from(v)`, which truncates to the defined-bits mask 0xfb) and
reading it back via PHP (which pushes `u8::from(P)` = the raw bits) stores
a byte that agrees with `v` on every defined flag position (bits 0, 1, 3,
4, 5, 6 and 7 in the bit layout of this bank) while the undefined position (bit 2)
reads back as zero regardless of what was written. -/
theorem plp_php_roundtrip (c : CPU) (v : Nat) (hv : v < 256)
    (hS : c.registers.S ≤ 0x7ff) :
    ∃ c3, CPU.executePHP (CPU.plpSet c v) = some c3 ∧
      c3.memory.memory c.registers.S = Flags.toByte (Flags.fromByte v) ∧
      Nat.testBit (Flags.toByte (Flags.fromByte v)) 2 = false ∧
      (∀ i, i < 8 → i ≠ 2 →
        Nat.testBit (Flags.toByte (Flags.fromByte v)) i = Nat.testBit v i) := by
  have hm : flagsMask = 251 := by decide
  simp only [CPU.executePHP, CPU.push, CPU.plpSet, MemoryBus.write_byte]
  rw [if_pos hS]
  refine ⟨_, rfl, ?_, ?_, ?_⟩
  · simp [updateFn]
  · simp only [Flags.toByte, Flags.fromByte, hm]
    rw [Nat.testBit_land]
    simp [show ((251 : Nat).testBit 2) = false from by decide]
  · intro i h1 h2
    simp only [Flags.toByte, Flags.fromByte, hm]
    rw [Nat.testBit_land]
    have ht : (251 : Nat).testBit i = true := by
      interval_cases i <;> first | decide | (exact absurd rfl h2)
    rw [ht, Bool.and_true]

/-- Witness for C10: the round trip at the power-on CPU with v = 0xff. -/
theorem plp_php_roundtrip_witness :
    ∃ c3, CPU.executePHP (CPU.plpSet cpuEx 0xff) = some c3 ∧
      c3.memory.memory cpuEx.registers.S = Flags.toByte (Flags.fromByte 0xff) ∧
      Nat.testBit (Flags.toByte (Flags.fromByte 0xff)) 2 = false ∧
      (∀ i, i < 8 → i ≠ 2 →
        Nat.testBit (Flags.toByte (Flags.fromByte 0xff)) i = Nat.testBit 0xff i) :=
  plp_php_roundtrip cpuEx 0xff (by decide) (by decide)

/-! ### Vblank timing (claim C9) -/

/-- Iterated `PPU::tick`. -/
def Ppu.tickN (p : Ppu) : Nat → Ppu
  | 0 => p
  | n + 1 => (p.tickN n).tick

/-- Bit arithmetic: the mask is contained after inserting it. -/
theorem lor_and_self (x y : Nat) : (x ||| y) &&& y = y := by
  apply Nat.eq_of_testBit_eq
  intro i
  rw [Nat.testBit_land, Nat.testBit_lor]
  cases hy : y.testBit i <;> simp [hy]

/-- The `bitflags` `contains` holds after `insert`. -/
theorem flagContains_lor_self (x m : Nat) : flagContains (x ||| m) m = true := by
  simp [flagContains, lor_and_self]

/-- The vblank bit is clear after `remove`-ing it. -/
theorem flagContains_remove_vblank (x : Nat) :
    flagContains (flagRemove x statusVblank) statusVblank = false := by
  simp only [flagContains, flagRemove, statusVblank]
  have h1 : ((127 : Nat)) &&& 128 = 0 := by decide
  have h2 : x &&& 127 &&& 128 = 0 := by
    rw [Nat.and_assoc, h1, Nat.and_zero]
  simp [h2]

/-- During the first 82181 power-on ticks (scanlines 0 through 240) the
counters advance as `k / 341` and `k % 341` and the status byte stays 0:
`set_vblank` never fires below scanline 241. -/
theorem tickN_init_char : ∀ k, k ≤ 82181 →
    (Ppu.init.tickN k).scanline = k / 341 ∧
    (Ppu.init.tickN k).cycles = k % 341 ∧
    (Ppu.init.tickN k).registers.status = 0 := by
  intro k
  induction k with
  | zero => intro _; exact ⟨rfl, rfl, rfl⟩
  | succ n ih =>
      intro h
      obtain ⟨h1, h2, h3⟩ := ih (by omega)
      have hA : ¬ ((Ppu.init.tickN n).scanline = 241) := by rw [h1]; omega
      have hphase : (if (Ppu.init.tickN n).scanline < 240 then Ppu.init.tickN n
          else if (Ppu.init.tickN n).scanline = 241 then
            { Ppu.init.tickN n with registers := (Ppu.init.tickN n).registers.set_vblank }
          else Ppu.init.tickN n) = Ppu.init.tickN n := by
        split_ifs with hx
        · rfl
        · rfl
      simp only [Ppu.tickN, Ppu.tick, hphase]
      by_cases h340 : (Ppu.init.tickN n).cycles = 340
      · by_cases h310 : (Ppu.init.tickN n).scanline = 310
        · rw [h1] at h310; omega
        · rw [if_pos h340, if_neg h310]
          refine ⟨?_, ?_, ?_⟩
          · show (Ppu.init.tickN n).scanline + 1 = (n + 1) / 341
            rw [h1]; rw [h2] at h340; omega
          · show (0 : Nat) = (n + 1) % 341
            rw [h2] at h340; omega
          · exact h3
      · rw [if_neg h340]
        refine ⟨?_, ?_, ?_⟩
        · show (Ppu.init.tickN n).scanline = (n + 1) / 341
          rw [h1]; rw [h2] at h340; omega
        · show (Ppu.init.tickN n).cycles + 1 = (n + 1) % 341
          rw [h2]; rw [h2] at h340; omega
        · exact h3

/-- A tick taken anywhere inside scanline 241 (not only at its start)
sets the vblank bit and stays on the same scanline. -/
theorem tick_at_241 (p : Ppu) (hsc : p.scanline = 241) (hcy : p.cycles ≠ 340) :
    (p.tick).scanline = 241 ∧ (p.tick).cycles = p.cycles + 1 ∧
    (p.tick).registers.status = p.registers.status ||| statusVblank := by
  simp only [Ppu.tick, hsc, RegisterBank.set_vblank, flagInsert]
  split_ifs with hx
  · omega
  · exact ⟨rfl, rfl, rfl⟩

/-- A status read through the register file (`read_register 2`) keeps the
timing fields, clears vblank and resets the latch. -/
theorem read_register2_obs (p : Ppu) :
    ((p.read_register 2).2).scanline = p.scanline ∧
    ((p.read_register 2).2).cycles = p.cycles ∧
    ((p.read_register 2).2).registers.status = flagRemove p.registers.status statusVblank ∧
    ((p.read_register 2).2).registers.first_write = true :=
  ⟨rfl, rfl, rfl, rfl⟩

/-- Counterexample to claim C9 as stated.  Concrete run: after 82181 ticks
from power-on the scanline counter has just reached the vblank-start line
241 with the vblank bit still clear.  The next tick sets it (the first
set of the frame).  A status-register read (register 2, i.e. address
0x2002) then clears it, and the following tick — still inside the same
scanline 241 of the same frame — sets it AGAIN: the bit is set twice
within one frame, not exactly once at the point the counter reaches the
vblank-start line.  (The scanline counter also never reaches 311: it
wraps at 310.) -/
theorem vblank_set_twice_in_frame :
    (Ppu.init.tickN 82181).scanline = 241 ∧
    flagContains (Ppu.init.tickN 82181).registers.status statusVblank = false ∧
    ((Ppu.init.tickN 82181).tick).scanline = 241 ∧
    flagContains ((Ppu.init.tickN 82181).tick).registers.status statusVblank = true ∧
    ((((Ppu.init.tickN 82181).tick).read_register 2).2).scanline = 241 ∧
    flagContains ((((Ppu.init.tickN 82181).tick).read_register 2).2).registers.status
      statusVblank = false ∧
    (((((Ppu.init.tickN 82181).tick).read_register 2).2).tick).scanline = 241 ∧
    flagContains (((((Ppu.init.tickN 82181).tick).read_register 2).2).tick).registers.status
      statusVblank = true := by
  obtain ⟨h1, h2, h3⟩ := tickN_init_char 82181 (by omega)
  rw [show (82181 : Nat) / 341 = 241 by norm_num] at h1
  rw [show (82181 : Nat) % 341 = 0 by norm_num] at h2
  obtain ⟨t1sc, t1cy, t1st⟩ := tick_at_241 (Ppu.init.tickN 82181) h1 (by omega)
  obtain ⟨rsc, rcy, rst, rfw⟩ := read_register2_obs ((Ppu.init.tickN 82181).tick)
  obtain ⟨t2sc, t2cy, t2st⟩ :=
    tick_at_241 ((((Ppu.init.tickN 82181).tick).read_register 2).2)
      (by rw [rsc]; exact t1sc) (by rw [rcy, t1cy, h2]; omega)
  refine ⟨h1, ?_, t1sc, ?_, ?_, ?_, t2sc, ?_⟩
  · rw [h3]; decide
  · rw [t1st, h3]; decide
  · rw [rsc]; exact t1sc
  · rw [rst, t1st, h3]; decide
  · rw [t2st, rst, t1st, h3]; decide

/-- Claim C9, amended.  What the code guarantees: (1) every tick taken
while the scanline counter reads 241 sets the vblank status bit — so with
no intervening status read the bit becomes set exactly once per frame,
when the counter reaches line 241, but a mid-line-241 status read is
followed by the bit being set again; (2) ticks on any other scanline
leave the register bank untouched; (3) reading the status register
returns the current bits, clears the vblank bit and resets the
write-toggle latch — the only place the bit is cleared; (4) the scanline
counter stays in 0-310 (it wraps at 310, never reaching 311) and the
cycle counter stays in 0-340. -/
theorem vblank_amended :
    (∀ p : Ppu, p.scanline = 241 →
        flagContains ((p.tick).registers.status) statusVblank = true) ∧
    (∀ p : Ppu, p.scanline ≠ 241 → (p.tick).registers = p.registers) ∧
    (∀ r : RegisterBank, (r.read_status).1 = r.status ∧
        flagContains ((r.read_status).2).status statusVblank = false ∧
        ((r.read_status).2).first_write = true) ∧
    (∀ p : Ppu, p.scanline ≤ 310 → p.cycles ≤ 340 →
        (p.tick).scanline ≤ 310 ∧ (p.tick).cycles ≤ 340) := by
  refine ⟨?_, ?_, ?_, ?_⟩
  · intro p hp
    simp only [Ppu.tick, hp, RegisterBank.set_vblank, flagInsert, ite_true]
    split_ifs <;> first | exact flagContains_lor_self _ _ | omega
  · intro p hp
    simp only [Ppu.tick]
    split_ifs <;> rfl
  · intro r
    exact ⟨rfl, flagContains_remove_vblank r.status, rfl⟩
  · intro p h1 h2
    simp only [Ppu.tick]
    split_ifs <;> constructor <;> (try dsimp at *) <;> omega

/-- Witness for the amended C9 at a concrete state on scanline 241. -/
theorem vblank_amended_witness :
    flagContains ((ppuAt241.tick).registers.status) statusVblank = true ∧
    ((ppuAt241.tick).scanline ≤ 310 ∧ (ppuAt241.tick).cycles ≤ 340) :=
  ⟨vblank_amended.1 ppuAt241 rfl,
   vblank_amended.2.2.2 ppuAt241 (by decide) (by decide)⟩
